import Mathlib

/-!
Shallow embedding of `src/nic_analyzer.py` (class `FinancialHealthAnalyzer`,
method `analyze_nic_data`).  Monetary amounts and percentages are modelled as
rationals; Python's `float("inf")` sentinel for the survival ratio is the
constructor `SurvRatio.inf`; the `ValueError` raised by the validation gate is
an `Except.error`.  Python's `round(x, 2)` / format rounding is round-half-to-
even on the modelled rational value.
-/

/-- The eight inputs of `analyze_nic_data`, in source order. -/
structure AnalysisInput where
  net_income_monthly : ℚ
  needs_food : ℚ
  needs_housing : ℚ
  needs_transport : ℚ
  needs_utilities : ℚ
  needs_insurance : ℚ
  needs_debt : ℚ
  wants_misc : ℚ
  deriving DecidableEq, Repr

/-- `float`-valued survival ratio: a finite rational or the `float("inf")`
sentinel assigned when `total_expenses_monthly` is not positive. -/
inductive SurvRatio where
  | fin (q : ℚ)
  | inf
  deriving DecidableEq, Repr

/-- Python comparison `survival_ratio < b` (with `float("inf") < b` false). -/
def SurvRatio.ltv : SurvRatio → ℚ → Bool
  | .inf, _ => false
  | .fin q, b => decide (q < b)

/-- Python comparison `survival_ratio <= b` (with `float("inf") <= b` false). -/
def SurvRatio.lev : SurvRatio → ℚ → Bool
  | .inf, _ => false
  | .fin q, b => decide (q ≤ b)

/-- Python comparison `survival_ratio > b` (with `float("inf") > b` true). -/
def SurvRatio.gtv : SurvRatio → ℚ → Bool
  | .inf, _ => true
  | .fin q, b => decide (b < q)

/-- The dictionary returned by `analyze_nic_data` (§6 "Return as dict"),
as a fixed record with the same keys. -/
structure AnalysisResult where
  health_score : ℚ
  actual_needs_pct : ℚ
  actual_wants_pct : ℚ
  actual_savings_pct : ℚ
  dsr_pct : ℚ
  dsr_status : String
  survival_ratio_v : SurvRatio
  survival_status : String
  weakness_insight_text : String
  culprit_item : Option String
  culprit_amount : ℚ
  needs_surplus_amount : ℚ
  wants_surplus_amount : ℚ
  deriving DecidableEq, Repr

/-- Round a rational to the nearest integer, ties to even — the rounding
Python's `round` and `format` use. -/
def rndHalfEven (q : ℚ) : ℤ :=
  if q - (⌊q⌋ : ℚ) < 1 / 2 then ⌊q⌋
  else if 1 / 2 < q - (⌊q⌋ : ℚ) then ⌊q⌋ + 1
  else if ⌊q⌋ % 2 = 0 then ⌊q⌋ else ⌊q⌋ + 1

/-- Python's `round(x, 2)` on the modelled rational. -/
def round2 (q : ℚ) : ℚ := (rndHalfEven (q * 100) : ℚ) / 100

/-- Python's `f"{x:.1f}"` on the modelled rational. -/
def format1f (q : ℚ) : String :=
  let n := rndHalfEven (q * 10)
  let m := n.natAbs
  (if n < 0 then "-" else "") ++ toString (m / 10) ++ "." ++ toString (m % 10)

/-- Group a reversed digit list into blocks of three with `,` separators,
for Python's `","` format flag. -/
def groupRev : List Char → List Char
  | a :: b :: c :: d :: rest => a :: b :: c :: Char.ofNat 44 :: groupRev (d :: rest)
  | l => l

/-- Python's `f"{x:,.0f}"` on the modelled rational. -/
def formatComma0f (q : ℚ) : String :=
  let n := rndHalfEven q
  let ds := (toString n.natAbs).toList
  (if n < 0 then "-" else "") ++ String.mk (groupRev ds.reverse).reverse

/-- `total_needs`: sum of the six needs fields. -/
def total_needs (p : AnalysisInput) : ℚ :=
  p.needs_food + p.needs_housing + p.needs_transport + p.needs_utilities
    + p.needs_insurance + p.needs_debt

/-- `total_expenses_monthly = total_needs + wants_misc`. -/
def total_expenses_monthly (p : AnalysisInput) : ℚ :=
  total_needs p + p.wants_misc

/-- `savings_monthly_derived = net_income_monthly - total_expenses_monthly`. -/
def savings_monthly_derived (p : AnalysisInput) : ℚ :=
  p.net_income_monthly - total_expenses_monthly p

/-- `actual_needs_pct = (total_needs / net_income_monthly) * 100`. -/
def actual_needs_pct (p : AnalysisInput) : ℚ :=
  total_needs p / p.net_income_monthly * 100

/-- `actual_wants_pct = (wants_misc / net_income_monthly) * 100`. -/
def actual_wants_pct (p : AnalysisInput) : ℚ :=
  p.wants_misc / p.net_income_monthly * 100

/-- `actual_savings_pct = (savings_monthly_derived / net_income_monthly) * 100`. -/
def actual_savings_pct (p : AnalysisInput) : ℚ :=
  savings_monthly_derived p / p.net_income_monthly * 100

/-- `dsr_pct = (needs_debt / net_income_monthly) * 100`. -/
def dsr_pct (p : AnalysisInput) : ℚ :=
  p.needs_debt / p.net_income_monthly * 100

/-- Survival ratio: `net_income_monthly / total_expenses_monthly` when the
expenses are positive, otherwise the `float("inf")` sentinel. -/
def survival_ratio_v (p : AnalysisInput) : SurvRatio :=
  if total_expenses_monthly p > 0 then
    .fin (p.net_income_monthly / total_expenses_monthly p)
  else
    .inf

/-- The `dsr_status` if-chain. -/
def dsr_status (p : AnalysisInput) : String :=
  if dsr_pct p ≤ 15 then "Excellent"
  else if dsr_pct p ≤ 40 then "Good"
  else if dsr_pct p ≤ 50 then "Warning"
  else "Critical"

/-- The `survival_status` if-chain. -/
def survival_status (p : AnalysisInput) : String :=
  if (survival_ratio_v p).ltv 1 then "Critical"
  else if (survival_ratio_v p).ltv 3 then "Warning"
  else "Excellent"

/-- Needs Control sub-score: `max(0.0, min(20.0, 20 * (1 - (actual_needs_pct - 50) / 25)))`. -/
def needs_score (p : AnalysisInput) : ℚ :=
  max 0 (min 20 (20 * (1 - (actual_needs_pct p - 50) / 25)))

/-- Wants Control sub-score: `max(0.0, min(20.0, 20 * (1 - (actual_wants_pct - 30) / 20)))`. -/
def wants_score (p : AnalysisInput) : ℚ :=
  max 0 (min 20 (20 * (1 - (actual_wants_pct p - 30) / 20)))

/-- Savings Power sub-score: `max(0.0, min(35.0, 35 * (actual_savings_pct / 20)))`. -/
def savings_score (p : AnalysisInput) : ℚ :=
  max 0 (min 35 (35 * (actual_savings_pct p / 20)))

/-- Debt Control sub-score: `max(0.0, min(25.0, 25 * (1 - dsr_pct / 40)))`. -/
def debt_score (p : AnalysisInput) : ℚ :=
  max 0 (min 25 (25 * (1 - dsr_pct p / 40)))

/-- `health_score`: sum of the four clamped sub-scores. -/
def health_score (p : AnalysisInput) : ℚ :=
  needs_score p + wants_score p + savings_score p + debt_score p

/-- `needs_surplus_amount = max(0.0, total_needs - 0.50 * net_income_monthly)`. -/
def needs_surplus_amount (p : AnalysisInput) : ℚ :=
  max 0 (total_needs p - 0.50 * p.net_income_monthly)

/-- `wants_surplus_amount = max(0.0, wants_misc - 0.30 * net_income_monthly)`. -/
def wants_surplus_amount (p : AnalysisInput) : ℚ :=
  max 0 (p.wants_misc - 0.30 * p.net_income_monthly)

/-- The `needs_items` dict, in its insertion (= iteration) order. -/
def needs_items (p : AnalysisInput) : List (String × ℚ) :=
  [("food", p.needs_food), ("housing", p.needs_housing),
   ("transport", p.needs_transport), ("utilities", p.needs_utilities),
   ("insurance", p.needs_insurance), ("debt", p.needs_debt)]

/-- Python's `max(d, key=d.get)` over an association list: scan left to
right, replacing the current best only on a strictly larger value. -/
def maxByFirst : List (String × ℚ) → Option (String × ℚ)
  | [] => none
  | x :: xs => some (xs.foldl (fun acc y => if acc.2 < y.2 then y else acc) x)

/-- Culprit: `max(needs_items, key=needs_items.get)` when `total_needs > 0`,
else the `None` / `0.0` defaults. -/
def culprit_pair (p : AnalysisInput) : Option (String × ℚ) :=
  if total_needs p > 0 then maxByFirst (needs_items p) else none

/-- The survival-ratio crisis sentence (insight rule 1). -/
def crisis_text : String :=
  "⏰ สถานะการเงินของคุณเริ่มน่าห่วง "
    ++ "เพราะรายจ่ายรวมต่อเดือนสูงกว่าหรือเกือบเท่ารายได้สุทธิ "
    ++ "ควรพิจารณาลดรายจ่ายเร่งด่วน"

/-- The debt-burden sentence (insight rule 2). -/
def dsr_msg (p : AnalysisInput) : String :=
  "⚠️ ภาระหนี้ของคุณอยู่ในระดับ \x27" ++ dsr_status p ++ "\x27 "
    ++ "(DSR ≈ " ++ format1f (dsr_pct p) ++ "%) ควรระวังการสร้างหนี้เพิ่มและวางแผนปิดหนี้เดิม"

/-- The needs-overspend sentence (insight rule 3), extended with the culprit
category when one exists. -/
def needs_over_msg (p : AnalysisInput) : String :=
  let msg := "🍛 ค่าใช้จ่ายจำเป็น (Needs) เกินกรอบ 50% ของรายได้ ประมาณ "
    ++ formatComma0f (needs_surplus_amount p) ++ " บาท/เดือน"
  match culprit_pair p with
  | some c =>
      msg ++ " โดยหมวดที่ใช้เยอะสุดคือ \x27" ++ c.1 ++ "\x27 ประมาณ "
        ++ formatComma0f c.2 ++ " บาท/เดือน"
  | none => msg

/-- The wants-overspend sentence (insight rule 4). -/
def wants_over_msg (p : AnalysisInput) : String :=
  "🎮 ค่าใช้จ่ายไม่จำเป็น (Wants) เกินกรอบ 30% ของรายได้ "
    ++ "ประมาณ " ++ formatComma0f (wants_surplus_amount p)
    ++ " บาท/เดือน ลองตัดรายจ่ายฟุ่มเฟือยบางส่วน"

/-- The positive-outlook fallback sentence. -/
def positive_text : String :=
  "✅ ภาพรวมการใช้เงินของคุณอยู่ในเกณฑ์ดี ทั้งสัดส่วน Needs/Wants/การออม "
    ++ "และภาระหนี้ยังไม่เกินจุดเสี่ยง"

/-- The `insights` list built by the four append-at-most-one-sentence rules,
in source order. -/
def insights_list (p : AnalysisInput) : List String :=
  (if (survival_ratio_v p).lev 1 then [crisis_text] else [])
    ++ (if dsr_status p = "Warning" ∨ dsr_status p = "Critical" then [dsr_msg p] else [])
    ++ (if needs_surplus_amount p > 0 then [needs_over_msg p] else [])
    ++ (if wants_surplus_amount p > 0 then [wants_over_msg p] else [])

/-- `weakness_insight_text`: the rule sentences space-joined, with the
positive-outlook fallback when no rule fired. -/
def weakness_insight_text (p : AnalysisInput) : String :=
  String.intercalate " "
    (if insights_list p = [] then [positive_text] else insights_list p)

/-- The Thai `ValueError` message of the validation gate. -/
def gate_err_msg : String := "net_income_monthly ต้องมากกว่า 0"

/-- `analyze_nic_data`: the validation gate, then the fully populated result
dict with the final two-decimal rounding applied. -/
def analyze_nic_data (p : AnalysisInput) : Except String AnalysisResult :=
  if p.net_income_monthly ≤ 0 then .error gate_err_msg
  else .ok {
    health_score := round2 (health_score p)
    actual_needs_pct := round2 (actual_needs_pct p)
    actual_wants_pct := round2 (actual_wants_pct p)
    actual_savings_pct := round2 (actual_savings_pct p)
    dsr_pct := round2 (dsr_pct p)
    dsr_status := dsr_status p
    survival_ratio_v :=
      match survival_ratio_v p with
      | .fin q => .fin (round2 q)
      | .inf => .inf
    survival_status := survival_status p
    weakness_insight_text := weakness_insight_text p
    culprit_item := (culprit_pair p).map Prod.fst
    culprit_amount := round2 (((culprit_pair p).map Prod.snd).getD 0)
    needs_surplus_amount := round2 (needs_surplus_amount p)
    wants_surplus_amount := round2 (wants_surplus_amount p) }

/-- The concrete scenario input of `playground.py` / spec §8. -/
def sample_input : AnalysisInput :=
  { net_income_monthly := 30000, needs_food := 5000, needs_housing := 5000,
    needs_transport := 2000, needs_utilities := 1000, needs_insurance := 1000,
    needs_debt := 1000, wants_misc := 9000 }

/-- The result record the analyzer produces on `sample_input`. -/
def sample_result : AnalysisResult :=
  { health_score := 2448 / 25, actual_needs_pct := 50, actual_wants_pct := 30,
    actual_savings_pct := 20, dsr_pct := 333 / 100, dsr_status := "Excellent",
    survival_ratio_v := .fin (5 / 4), survival_status := "Warning",
    weakness_insight_text := positive_text, culprit_item := some "food",
    culprit_amount := 5000, needs_surplus_amount := 0, wants_surplus_amount := 0 }

/-- An input rejected by the validation gate (`net_income_monthly = -100`). -/
def bad_input : AnalysisInput :=
  { net_income_monthly := -100, needs_food := 0, needs_housing := 0,
    needs_transport := 0, needs_utilities := 0, needs_insurance := 0,
    needs_debt := 0, wants_misc := 0 }

/-- An input with positive income and all seven expense fields zero. -/
def zero_exp_input : AnalysisInput :=
  { net_income_monthly := 1000, needs_food := 0, needs_housing := 0,
    needs_transport := 0, needs_utilities := 0, needs_insurance := 0,
    needs_debt := 0, wants_misc := 0 }

/-- An input whose total expenses exactly equal the net income
(survival ratio boundary 1.0). -/
def boundary_input : AnalysisInput :=
  { net_income_monthly := 1000, needs_food := 1000, needs_housing := 0,
    needs_transport := 0, needs_utilities := 0, needs_insurance := 0,
    needs_debt := 0, wants_misc := 0 }

/-- Two sequential calls of the analyzer, as a pair of results: the class
holds no state, so each call depends only on its own arguments. -/
def run_twice (p q : AnalysisInput) :
    Except String AnalysisResult × Except String AnalysisResult :=
  (analyze_nic_data p, analyze_nic_data q)

/-! ### Helper lemmas -/

lemma floor_le_rndHalfEven (q : ℚ) : ⌊q⌋ ≤ rndHalfEven q := by
  unfold rndHalfEven
  split_ifs <;> omega

lemma rndHalfEven_le_floor_add_one (q : ℚ) : rndHalfEven q ≤ ⌊q⌋ + 1 := by
  unfold rndHalfEven
  split_ifs <;> omega

lemma rndHalfEven_mono {x y : ℚ} (h : x ≤ y) : rndHalfEven x ≤ rndHalfEven y := by
  rcases lt_or_eq_of_le (Int.floor_le_floor h : ⌊x⌋ ≤ ⌊y⌋) with hlt | heq
  · calc rndHalfEven x ≤ ⌊x⌋ + 1 := rndHalfEven_le_floor_add_one x
      _ ≤ ⌊y⌋ := by omega
      _ ≤ rndHalfEven y := floor_le_rndHalfEven y
  · unfold rndHalfEven
    rw [← heq]
    have hr : x - (⌊x⌋ : ℚ) ≤ y - (⌊x⌋ : ℚ) := by linarith
    split_ifs <;> first | omega | linarith

lemma round2_mono {x y : ℚ} (h : x ≤ y) : round2 x ≤ round2 y := by
  have h1 : rndHalfEven (x * 100) ≤ rndHalfEven (y * 100) :=
    rndHalfEven_mono (by linarith)
  have h2 : ((rndHalfEven (x * 100) : ℤ) : ℚ) ≤ ((rndHalfEven (y * 100) : ℤ) : ℚ) := by
    exact_mod_cast h1
  unfold round2
  linarith

lemma rndHalfEven_intCast (n : ℤ) : rndHalfEven ((n : ℤ) : ℚ) = n := by
  unfold rndHalfEven
  rw [Int.floor_intCast]
  norm_num

lemma rndHalfEven_eq_left (q : ℚ) (n : ℤ) (h1 : (n : ℚ) ≤ q) (h2 : q - (n : ℚ) < 1 / 2) :
    rndHalfEven q = n := by
  have hf : ⌊q⌋ = n := Int.floor_eq_iff.2 ⟨h1, by linarith⟩
  unfold rndHalfEven
  rw [hf, if_pos h2]

lemma rndHalfEven_eq_right (q : ℚ) (n : ℤ) (h1 : (n : ℚ) ≤ q) (h1b : q < (n : ℚ) + 1)
    (h2 : 1 / 2 < q - (n : ℚ)) : rndHalfEven q = n + 1 := by
  have hf : ⌊q⌋ = n := Int.floor_eq_iff.2 ⟨h1, by linarith⟩
  unfold rndHalfEven
  rw [hf, if_neg (by linarith), if_pos h2]

lemma round2_eq_left (q : ℚ) (n : ℤ) (h1 : (n : ℚ) ≤ q * 100) (h2 : q * 100 - (n : ℚ) < 1 / 2) :
    round2 q = (n : ℚ) / 100 := by
  unfold round2
  rw [rndHalfEven_eq_left _ n h1 h2]

lemma round2_eq_right (q : ℚ) (n : ℤ) (h1 : (n : ℚ) ≤ q * 100) (h1b : q * 100 < (n : ℚ) + 1)
    (h2 : 1 / 2 < q * 100 - (n : ℚ)) : round2 q = ((n : ℚ) + 1) / 100 := by
  unfold round2
  rw [rndHalfEven_eq_right _ n h1 h1b h2]
  push_cast
  ring_nf

lemma round2_intCast (n : ℤ) : round2 ((n : ℤ) : ℚ) = ((n : ℤ) : ℚ) := by
  unfold round2
  have h : ((n : ℚ) * 100) = ((n * 100 : ℤ) : ℚ) := by push_cast; ring
  rw [h, rndHalfEven_intCast]
  push_cast
  ring

lemma round2_zero : round2 0 = 0 := by
  have h := round2_intCast 0
  simpa using h

lemma round2_hundred : round2 100 = 100 := by
  have h := round2_intCast 100
  simpa using h

lemma round2_nonneg {x : ℚ} (h : 0 ≤ x) : 0 ≤ round2 x := by
  have h0 : round2 0 ≤ round2 x := round2_mono h
  rw [round2_zero] at h0
  exact h0

lemma round2_le_hundred {x : ℚ} (h : x ≤ 100) : round2 x ≤ 100 := by
  have h0 : round2 x ≤ round2 100 := round2_mono h
  rw [round2_hundred] at h0
  exact h0

lemma str_length_eq_zero {a : String} (h : a.length = 0) : a = "" := by
  cases a with
  | mk d =>
    cases d with
    | nil => rfl
    | cons c cs => simp [String.length] at h

lemma str_append_ne_empty {a : String} (b : String) (ha : a ≠ "") : a ++ b ≠ "" := by
  intro h
  apply ha
  have hl := congrArg String.length h
  rw [String.length_append] at hl
  have hz : String.length "" = 0 := rfl
  exact str_length_eq_zero (by omega)

lemma intercalate_go_length (s : String) :
    ∀ (l : List String) (acc : String),
      acc.length ≤ (String.intercalate.go acc s l).length := by
  intro l
  induction l with
  | nil => intro acc; simp [String.intercalate.go]
  | cons a as ih =>
    intro acc
    rw [String.intercalate.go]
    calc acc.length ≤ (acc ++ s ++ a).length := by
          rw [String.length_append, String.length_append]; omega
      _ ≤ _ := ih _

lemma intercalate_cons_ne_empty {a : String} (t : List String) (ha : a ≠ "") :
    String.intercalate " " (a :: t) ≠ "" := by
  intro h
  apply ha
  have h1 : a.length ≤ (String.intercalate " " (a :: t)).length := by
    rw [String.intercalate]
    exact intercalate_go_length " " t a
  rw [h] at h1
  exact str_length_eq_zero (by simpa using h1)

lemma intercalate_singleton (a : String) : String.intercalate " " [a] = a := rfl

lemma foldl_maxByFirst_spec (xs : List (String × ℚ)) :
    ∀ (x : String × ℚ) (r : String × ℚ),
      xs.foldl (fun acc y => if acc.2 < y.2 then y else acc) x = r →
      ∃ k : ℕ, (x :: xs).get? k = some r ∧ (∀ y ∈ x :: xs, y.2 ≤ r.2) ∧
        ∀ y ∈ (x :: xs).take k, y.2 < r.2 := by
  induction xs with
  | nil =>
    intro x r hr
    simp only [List.foldl_nil] at hr
    subst hr
    exact ⟨0, rfl, by simp, by simp⟩
  | cons z zs ih =>
    intro x r hr
    simp only [List.foldl_cons] at hr
    by_cases hlt : x.2 < z.2
    · rw [if_pos hlt] at hr
      obtain ⟨k, hk, hmax, hstrict⟩ := ih z r hr
      have hzr : z.2 ≤ r.2 := hmax z (List.mem_cons_self z zs)
      refine ⟨k + 1, by simpa using hk, ?_, ?_⟩
      · intro y hy
        rcases List.mem_cons.1 hy with rfl | hy
        · exact le_of_lt (lt_of_lt_of_le hlt hzr)
        · exact hmax y hy
      · intro y hy
        simp only [List.take_succ_cons] at hy
        rcases List.mem_cons.1 hy with rfl | hy
        · exact lt_of_lt_of_le hlt hzr
        · exact hstrict y hy
    · rw [if_neg hlt] at hr
      have hzx : z.2 ≤ x.2 := le_of_not_lt hlt
      obtain ⟨k, hk, hmax, hstrict⟩ := ih x r hr
      have hxr : x.2 ≤ r.2 := hmax x (List.mem_cons_self x zs)
      cases k with
      | zero =>
        have hxre : x = r := by simpa using hk
        subst hxre
        refine ⟨0, rfl, ?_, by simp⟩
        intro y hy
        rcases List.mem_cons.1 hy with rfl | hy
        · exact le_refl _
        · rcases List.mem_cons.1 hy with rfl | hy
          · exact hzx
          · exact hmax y (List.mem_cons_of_mem x hy)
      | succ j =>
        have hkj : zs.get? j = some r := by simpa using hk
        have hxstrict : x.2 < r.2 := by
          apply hstrict x
          simp [List.take_succ_cons]
        refine ⟨j + 2, by simpa using hkj, ?_, ?_⟩
        · intro y hy
          rcases List.mem_cons.1 hy with rfl | hy
          · exact hxr
          · rcases List.mem_cons.1 hy with rfl | hy
            · exact le_trans hzx hxr
            · exact hmax y (List.mem_cons_of_mem x hy)
        · intro y hy
          simp only [List.take_succ_cons] at hy
          rcases List.mem_cons.1 hy with rfl | hy
          · exact hxstrict
          · rcases List.mem_cons.1 hy with rfl | hy
            · exact lt_of_le_of_lt hzx hxstrict
            · apply hstrict y
              simp only [List.take_succ_cons]
              exact List.mem_cons_of_mem x hy

lemma clamp_nonneg (b raw : ℚ) : 0 ≤ max 0 (min b raw) := le_max_left 0 _

lemma clamp_le (b raw : ℚ) (hb : 0 ≤ b) : max 0 (min b raw) ≤ b :=
  max_le hb (min_le_left _ _)

lemma analyze_pos_of_ok {p : AnalysisInput} {r : AnalysisResult}
    (h : analyze_nic_data p = Except.ok r) : 0 < p.net_income_monthly := by
  by_contra hc
  push_neg at hc
  unfold analyze_nic_data at h
  rw [if_pos hc] at h
  exact Except.noConfusion h

lemma result_of_ok {p : AnalysisInput} {r : AnalysisResult}
    (h : analyze_nic_data p = Except.ok r) :
    r = { health_score := round2 (health_score p)
          actual_needs_pct := round2 (actual_needs_pct p)
          actual_wants_pct := round2 (actual_wants_pct p)
          actual_savings_pct := round2 (actual_savings_pct p)
          dsr_pct := round2 (dsr_pct p)
          dsr_status := dsr_status p
          survival_ratio_v :=
            match survival_ratio_v p with
            | .fin q => .fin (round2 q)
            | .inf => .inf
          survival_status := survival_status p
          weakness_insight_text := weakness_insight_text p
          culprit_item := (culprit_pair p).map Prod.fst
          culprit_amount := round2 (((culprit_pair p).map Prod.snd).getD 0)
          needs_surplus_amount := round2 (needs_surplus_amount p)
          wants_surplus_amount := round2 (wants_surplus_amount p) } := by
  have hpos := analyze_pos_of_ok h
  unfold analyze_nic_data at h
  rw [if_neg (not_le.mpr hpos)] at h
  injection h with h
  exact h.symm

lemma health_score_nonneg (p : AnalysisInput) : 0 ≤ health_score p := by
  have h1 := clamp_nonneg 20 (20 * (1 - (actual_needs_pct p - 50) / 25))
  have h2 := clamp_nonneg 20 (20 * (1 - (actual_wants_pct p - 30) / 20))
  have h3 := clamp_nonneg 35 (35 * (actual_savings_pct p / 20))
  have h4 := clamp_nonneg 25 (25 * (1 - dsr_pct p / 40))
  unfold health_score needs_score wants_score savings_score debt_score
  linarith

lemma health_score_le_hundred (p : AnalysisInput) : health_score p ≤ 100 := by
  have h1 := clamp_le 20 (20 * (1 - (actual_needs_pct p - 50) / 25)) (by norm_num)
  have h2 := clamp_le 20 (20 * (1 - (actual_wants_pct p - 30) / 20)) (by norm_num)
  have h3 := clamp_le 35 (35 * (actual_savings_pct p / 20)) (by norm_num)
  have h4 := clamp_le 25 (25 * (1 - dsr_pct p / 40)) (by norm_num)
  unfold health_score needs_score wants_score savings_score debt_score
  linarith

lemma analyze_sample : analyze_nic_data sample_input = Except.ok sample_result := by
  have hnet : sample_input.net_income_monthly = 30000 := rfl
  have hwants : sample_input.wants_misc = 9000 := rfl
  have hdebt : sample_input.needs_debt = 1000 := rfl
  have htn : total_needs sample_input = 15000 := by norm_num [total_needs, sample_input]
  have hte : total_expenses_monthly sample_input = 24000 := by
    norm_num [total_expenses_monthly, htn, hwants]
  have hsav : savings_monthly_derived sample_input = 6000 := by
    rw [savings_monthly_derived, hte, hnet]; norm_num
  have hnp : actual_needs_pct sample_input = 50 := by
    rw [actual_needs_pct, htn, hnet]; norm_num
  have hwp : actual_wants_pct sample_input = 30 := by
    rw [actual_wants_pct, hwants, hnet]; norm_num
  have hsp : actual_savings_pct sample_input = 20 := by
    rw [actual_savings_pct, hsav, hnet]; norm_num
  have hdp : dsr_pct sample_input = 10 / 3 := by
    rw [dsr_pct, hdebt, hnet]; norm_num
  have hsr : survival_ratio_v sample_input = .fin (5 / 4) := by
    simp only [survival_ratio_v, hte, hnet]
    norm_num [SurvRatio.fin.injEq]
  have hds : dsr_status sample_input = "Excellent" := by
    unfold dsr_status
    rw [hdp, if_pos (by norm_num : (10 : ℚ) / 3 ≤ 15)]
  have hss : survival_status sample_input = "Warning" := by
    simp only [survival_status, hsr, SurvRatio.ltv]
    norm_num
  have hns : needs_score sample_input = 20 := by
    unfold needs_score; rw [hnp]; norm_num [min_def, max_def]
  have hws : wants_score sample_input = 20 := by
    unfold wants_score; rw [hwp]; norm_num [min_def, max_def]
  have hsvs : savings_score sample_input = 35 := by
    unfold savings_score; rw [hsp]; norm_num [min_def, max_def]
  have hdbs : debt_score sample_input = 275 / 12 := by
    unfold debt_score; rw [hdp]; norm_num [min_def, max_def]
  have hhs : health_score sample_input = 1175 / 12 := by
    unfold health_score; rw [hns, hws, hsvs, hdbs]; norm_num
  have hnsu : needs_surplus_amount sample_input = 0 := by
    unfold needs_surplus_amount; rw [htn, hnet]; norm_num [max_def]
  have hwsu : wants_surplus_amount sample_input = 0 := by
    unfold wants_surplus_amount; rw [hwants, hnet]; norm_num [max_def]
  have hcp : culprit_pair sample_input = some ("food", 5000) := by
    unfold culprit_pair
    rw [if_pos (by rw [htn]; norm_num)]
    norm_num [maxByFirst, needs_items, sample_input, List.foldl]
  have hil : insights_list sample_input = [] := by
    simp only [insights_list, hsr, hds, hnsu, hwsu, SurvRatio.lev]
    norm_num
    decide
  have hwt : weakness_insight_text sample_input = positive_text := by
    unfold weakness_insight_text
    rw [hil, if_pos rfl]
    exact intercalate_singleton positive_text
  unfold analyze_nic_data
  rw [if_neg (by rw [hnet]; norm_num)]
  unfold sample_result
  refine congrArg Except.ok ?_
  simp only [AnalysisResult.mk.injEq]
  refine ⟨?_, ?_, ?_, ?_, ?_, ?_, ?_, ?_, ?_, ?_, ?_, ?_, ?_⟩
  · rw [hhs, round2_eq_right (1175 / 12) 9791 (by norm_num) (by norm_num) (by norm_num)]
    norm_num
  · rw [hnp, round2_eq_left 50 5000 (by norm_num) (by norm_num)]; norm_num
  · rw [hwp, round2_eq_left 30 3000 (by norm_num) (by norm_num)]; norm_num
  · rw [hsp, round2_eq_left 20 2000 (by norm_num) (by norm_num)]; norm_num
  · rw [hdp, round2_eq_left (10 / 3) 333 (by norm_num) (by norm_num)]; norm_num
  · exact hds
  · rw [hsr]
    show SurvRatio.fin (round2 (5 / 4)) = SurvRatio.fin (5 / 4)
    rw [round2_eq_left (5 / 4) 125 (by norm_num) (by norm_num)]
    norm_num
  · exact hss
  · exact hwt
  · rw [hcp]; rfl
  · rw [hcp]
    show round2 5000 = 5000
    rw [round2_eq_left 5000 500000 (by norm_num) (by norm_num)]
    norm_num
  · rw [hnsu, round2_zero]
  · rw [hwsu, round2_zero]

/-! ### Claim theorems -/

/-- C1: for every input past the validation gate (`net_income_monthly > 0`),
with no restriction on the other seven fields (negative expenses included),
the returned `health_score` lies in [0, 100], because it is the sum of four
sub-scores independently clamped to [0, 20], [0, 20], [0, 35] and [0, 25]. -/
theorem healthScore_in_range (p : AnalysisInput) (r : AnalysisResult)
    (h : analyze_nic_data p = Except.ok r) :
    (0 ≤ r.health_score ∧ r.health_score ≤ 100) ∧
    (0 ≤ needs_score p ∧ needs_score p ≤ 20) ∧
    (0 ≤ wants_score p ∧ wants_score p ≤ 20) ∧
    (0 ≤ savings_score p ∧ savings_score p ≤ 35) ∧
    (0 ≤ debt_score p ∧ debt_score p ≤ 25) := by
  rw [result_of_ok h]
  refine ⟨⟨round2_nonneg (health_score_nonneg p),
           round2_le_hundred (health_score_le_hundred p)⟩,
         ⟨clamp_nonneg _ _, clamp_le _ _ (by norm_num)⟩,
         ⟨clamp_nonneg _ _, clamp_le _ _ (by norm_num)⟩,
         ⟨clamp_nonneg _ _, clamp_le _ _ (by norm_num)⟩,
         ⟨clamp_nonneg _ _, clamp_le _ _ (by norm_num)⟩⟩

/-- Witness for C1: the health-score bounds evaluated on the concrete
scenario input. -/
theorem healthScore_in_range_witness :
    (0 ≤ sample_result.health_score ∧ sample_result.health_score ≤ 100) ∧
    (0 ≤ needs_score sample_input ∧ needs_score sample_input ≤ 20) ∧
    (0 ≤ wants_score sample_input ∧ wants_score sample_input ≤ 20) ∧
    (0 ≤ savings_score sample_input ∧ savings_score sample_input ≤ 35) ∧
    (0 ≤ debt_score sample_input ∧ debt_score sample_input ≤ 25) :=
  healthScore_in_range sample_input sample_result analyze_sample

/-- C2: `analyze_nic_data` fails with the validation `ValueError` exactly when
`net_income_monthly ≤ 0`, whatever the other seven fields hold; otherwise it
returns a fully populated result — there is no other failure mode. -/
theorem gate_error_iff (p : AnalysisInput) :
    (analyze_nic_data p = Except.error gate_err_msg ↔ p.net_income_monthly ≤ 0) ∧
    (0 < p.net_income_monthly → ∃ r, analyze_nic_data p = Except.ok r) := by
  constructor
  · constructor
    · intro h
      by_contra hc
      push_neg at hc
      unfold analyze_nic_data at h
      rw [if_neg (not_le.mpr hc)] at h
      exact Except.noConfusion h
    · intro h
      unfold analyze_nic_data
      rw [if_pos h]
  · intro h
    unfold analyze_nic_data
    rw [if_neg (not_le.mpr h)]
    exact ⟨_, rfl⟩

/-- Witness for C2: the gate rejects `net_income_monthly = -100` and accepts
the concrete scenario input. -/
theorem gate_error_iff_witness :
    analyze_nic_data bad_input = Except.error gate_err_msg ∧
    ∃ r, analyze_nic_data sample_input = Except.ok r :=
  ⟨(gate_error_iff bad_input).1.2 (by norm_num [bad_input]),
   (gate_error_iff sample_input).2 (by norm_num [sample_input])⟩

/-- C3: on the concrete scenario input (net income 30000, needs
5000/5000/2000/1000/1000/1000, wants 9000) the analyzer returns exactly the
record `sample_result`: percentages 50/30/20, dsr 3.33, survival 1.25 with
status Warning, dsr status Excellent, health score 97.92, both surpluses 0,
culprit `food` (first of the 5000-tie in enumeration order) with amount 5000,
and the single positive-outlook sentence as insight text. -/
theorem scenario_sample : analyze_nic_data sample_input = Except.ok sample_result :=
  analyze_sample

lemma clamp_mono (b x y : ℚ) (h : x ≤ y) : max 0 (min b x) ≤ max 0 (min b y) :=
  max_le_max (le_refl 0) (min_le_min (le_refl b) h)

lemma dsr_status_of_ok {p : AnalysisInput} {r : AnalysisResult}
    (h : analyze_nic_data p = Except.ok r) : r.dsr_status = dsr_status p := by
  rw [result_of_ok h]

lemma survival_status_of_ok {p : AnalysisInput} {r : AnalysisResult}
    (h : analyze_nic_data p = Except.ok r) : r.survival_status = survival_status p := by
  rw [result_of_ok h]

lemma weakness_of_ok {p : AnalysisInput} {r : AnalysisResult}
    (h : analyze_nic_data p = Except.ok r) :
    r.weakness_insight_text = weakness_insight_text p := by
  rw [result_of_ok h]

lemma culprit_item_of_ok {p : AnalysisInput} {r : AnalysisResult}
    (h : analyze_nic_data p = Except.ok r) :
    r.culprit_item = (culprit_pair p).map Prod.fst := by
  rw [result_of_ok h]

lemma culprit_amount_of_ok {p : AnalysisInput} {r : AnalysisResult}
    (h : analyze_nic_data p = Except.ok r) :
    r.culprit_amount = round2 (((culprit_pair p).map Prod.snd).getD 0) := by
  rw [result_of_ok h]

/-- C4: whenever `total_needs > 0` the culprit pair is the entry of
`needs_items` (fixed order food, housing, transport, utilities, insurance,
debt) with the largest amount, the first such entry on ties — every entry
before it is strictly smaller — and the reported amount is that entry's
amount (rounded for output); when `total_needs = 0`, the culprit is the
none-value and the amount is 0. -/
theorem culprit_argmax_first (p : AnalysisInput) (r : AnalysisResult)
    (h : analyze_nic_data p = Except.ok r) :
    (total_needs p = 0 → r.culprit_item = none ∧ r.culprit_amount = 0) ∧
    (0 < total_needs p →
      ∃ c k, culprit_pair p = some c ∧
        r.culprit_item = some c.1 ∧ r.culprit_amount = round2 c.2 ∧
        (needs_items p).get? k = some c ∧
        (∀ y ∈ needs_items p, y.2 ≤ c.2) ∧
        (∀ y ∈ (needs_items p).take k, y.2 < c.2)) := by
  constructor
  · intro h0
    have hcp : culprit_pair p = none := by
      unfold culprit_pair
      rw [if_neg (by rw [h0]; exact lt_irrefl 0)]
    constructor
    · rw [culprit_item_of_ok h, hcp]; rfl
    · rw [culprit_amount_of_ok h, hcp]
      exact round2_zero
  · intro hpos
    have hcp : culprit_pair p = maxByFirst (needs_items p) := by
      unfold culprit_pair
      rw [if_pos hpos]
    obtain ⟨k, hk, hmax, hstrict⟩ := foldl_maxByFirst_spec
      [("housing", p.needs_housing), ("transport", p.needs_transport),
       ("utilities", p.needs_utilities), ("insurance", p.needs_insurance),
       ("debt", p.needs_debt)] ("food", p.needs_food) _ rfl
    refine ⟨_, k, ?_, ?_, ?_, hk, hmax, hstrict⟩
    · rw [hcp]; rfl
    · rw [culprit_item_of_ok h, hcp]; rfl
    · rw [culprit_amount_of_ok h, hcp]; rfl

/-- Witness for C4: on the concrete scenario input the culprit is the
first entry of the 5000-tie, `food`. -/
theorem culprit_argmax_first_witness :
    ∃ c k, culprit_pair sample_input = some c ∧
      sample_result.culprit_item = some c.1 ∧
      sample_result.culprit_amount = round2 c.2 ∧
      (needs_items sample_input).get? k = some c ∧
      (∀ y ∈ needs_items sample_input, y.2 ≤ c.2) ∧
      (∀ y ∈ (needs_items sample_input).take k, y.2 < c.2) :=
  (culprit_argmax_first sample_input sample_result analyze_sample).2
    (by norm_num [total_needs, sample_input])

lemma crisis_text_ne_empty : crisis_text ≠ "" := by decide

lemma positive_text_ne_empty : positive_text ≠ "" := by decide

lemma dsr_msg_ne_empty (p : AnalysisInput) : dsr_msg p ≠ "" := by
  unfold dsr_msg
  apply str_append_ne_empty
  apply str_append_ne_empty
  apply str_append_ne_empty
  apply str_append_ne_empty
  apply str_append_ne_empty
  decide

lemma needs_over_msg_ne_empty (p : AnalysisInput) : needs_over_msg p ≠ "" := by
  unfold needs_over_msg
  cases hcp : culprit_pair p with
  | none =>
    dsimp only
    apply str_append_ne_empty
    apply str_append_ne_empty
    decide
  | some c =>
    dsimp only
    apply str_append_ne_empty
    apply str_append_ne_empty
    apply str_append_ne_empty
    apply str_append_ne_empty
    apply str_append_ne_empty
    apply str_append_ne_empty
    apply str_append_ne_empty
    decide

lemma wants_over_msg_ne_empty (p : AnalysisInput) : wants_over_msg p ≠ "" := by
  unfold wants_over_msg
  apply str_append_ne_empty
  apply str_append_ne_empty
  apply str_append_ne_empty
  decide

lemma insights_list_mem_ne_empty (p : AnalysisInput) :
    ∀ s ∈ insights_list p, s ≠ "" := by
  intro s hs
  unfold insights_list at hs
  rcases List.mem_append.1 hs with hs | hs
  · rcases List.mem_append.1 hs with hs | hs
    · rcases List.mem_append.1 hs with hs | hs
      · split at hs
        · obtain rfl := List.mem_singleton.1 hs
          exact crisis_text_ne_empty
        · exact absurd hs (List.not_mem_nil s)
      · split at hs
        · obtain rfl := List.mem_singleton.1 hs
          exact dsr_msg_ne_empty p
        · exact absurd hs (List.not_mem_nil s)
    · split at hs
      · obtain rfl := List.mem_singleton.1 hs
        exact needs_over_msg_ne_empty p
      · exact absurd hs (List.not_mem_nil s)
  · split at hs
    · obtain rfl := List.mem_singleton.1 hs
      exact wants_over_msg_ne_empty p
    · exact absurd hs (List.not_mem_nil s)

lemma intercalate_go_prefix (s : String) :
    ∀ (l : List String) (acc : String),
      ∃ x, String.intercalate.go acc s l = acc ++ x := by
  intro l
  induction l with
  | nil =>
    intro acc
    exact ⟨"", by rw [String.intercalate.go, String.append_empty]⟩
  | cons a as ih =>
    intro acc
    obtain ⟨x, hx⟩ := ih (acc ++ s ++ a)
    refine ⟨s ++ (a ++ x), ?_⟩
    rw [String.intercalate.go, hx, String.append_assoc, String.append_assoc]

/-- C5: the insight text is never empty; and when the survival ratio exceeds
1.0, the DSR status is Excellent or Good and both surplus amounts are 0, no
rule fires and the text is exactly the single positive-outlook fallback
sentence. -/
theorem insight_nonempty_fallback (p : AnalysisInput) (r : AnalysisResult)
    (h : analyze_nic_data p = Except.ok r) :
    r.weakness_insight_text ≠ "" ∧
    ((survival_ratio_v p).gtv 1 = true →
      (dsr_status p = "Excellent" ∨ dsr_status p = "Good") →
      needs_surplus_amount p = 0 → wants_surplus_amount p = 0 →
      r.weakness_insight_text = positive_text) := by
  rw [weakness_of_ok h]
  constructor
  · unfold weakness_insight_text
    by_cases he : insights_list p = []
    · rw [if_pos he]
      exact intercalate_cons_ne_empty [] positive_text_ne_empty
    · rw [if_neg he]
      cases hl : insights_list p with
      | nil => exact absurd hl he
      | cons a t =>
        exact intercalate_cons_ne_empty t
          (insights_list_mem_ne_empty p a (hl ▸ List.mem_cons_self a t))
  · intro hgt hds hn hw
    have h1 : ¬ ((survival_ratio_v p).lev 1 = true) := by
      cases hsv : survival_ratio_v p with
      | inf => simp [SurvRatio.lev]
      | fin q =>
        rw [hsv] at hgt
        simp only [SurvRatio.gtv, decide_eq_true_eq] at hgt
        simp only [SurvRatio.lev, decide_eq_true_eq]
        exact not_le.mpr hgt
    have h2 : ¬ (dsr_status p = "Warning" ∨ dsr_status p = "Critical") := by
      rcases hds with hds | hds <;> rw [hds] <;> decide
    have h3 : ¬ needs_surplus_amount p > 0 := by rw [hn]; exact lt_irrefl 0
    have h4 : ¬ wants_surplus_amount p > 0 := by rw [hw]; exact lt_irrefl 0
    have hil : insights_list p = [] := by
      unfold insights_list
      rw [if_neg h1, if_neg h2, if_neg h3, if_neg h4]
      rfl
    unfold weakness_insight_text
    rw [hil, if_pos rfl]
    exact intercalate_singleton positive_text

/-- Witness for C5: on the concrete scenario input no rule fires, so the
insight text is the positive-outlook sentence (in particular non-empty). -/
theorem insight_nonempty_fallback_witness :
    sample_result.weakness_insight_text ≠ "" ∧
    sample_result.weakness_insight_text = positive_text := by
  have h := insight_nonempty_fallback sample_input sample_result analyze_sample
  refine ⟨h.1, h.2 ?_ ?_ ?_ ?_⟩
  · norm_num [survival_ratio_v, total_expenses_monthly, total_needs,
      sample_input, SurvRatio.gtv]
  · left
    norm_num [dsr_status, dsr_pct, sample_input]
  · norm_num [needs_surplus_amount, total_needs, sample_input, max_def]
  · norm_num [wants_surplus_amount, sample_input, max_def]

/-- C6: with the other seven fields held fixed (`needs_debt` non-negative,
income positive), raising `needs_debt` strictly lowers the debt sub-score
while it is above its clamp floor 0, leaves the wants sub-score unchanged,
does not raise the needs and savings sub-scores, and never raises the
health score (also after the output rounding). -/
theorem needs_debt_monotone (p : AnalysisInput) (d2 : ℚ)
    (hnet : 0 < p.net_income_monthly) (hd1 : 0 ≤ p.needs_debt)
    (hlt : p.needs_debt < d2) :
    (0 < debt_score p → debt_score { p with needs_debt := d2 } < debt_score p) ∧
    needs_score { p with needs_debt := d2 } ≤ needs_score p ∧
    savings_score { p with needs_debt := d2 } ≤ savings_score p ∧
    wants_score { p with needs_debt := d2 } = wants_score p ∧
    health_score { p with needs_debt := d2 } ≤ health_score p ∧
    (∀ r1 r2, analyze_nic_data p = Except.ok r1 →
      analyze_nic_data { p with needs_debt := d2 } = Except.ok r2 →
      r2.health_score ≤ r1.health_score) := by
  have hnz : p.net_income_monthly ≠ 0 := ne_of_gt hnet
  have hdsr : dsr_pct { p with needs_debt := d2 } - dsr_pct p
      = (d2 - p.needs_debt) * 100 / p.net_income_monthly := by
    unfold dsr_pct
    field_simp
    ring
  have hdsr_pos : 0 < dsr_pct { p with needs_debt := d2 } - dsr_pct p := by
    rw [hdsr]
    exact div_pos (mul_pos (sub_pos.2 hlt) (by norm_num)) hnet
  have hdsr_nonneg : 0 ≤ dsr_pct p := by
    unfold dsr_pct
    exact mul_nonneg (div_nonneg hd1 (le_of_lt hnet)) (by norm_num)
  have hnp : actual_needs_pct { p with needs_debt := d2 } - actual_needs_pct p
      = (d2 - p.needs_debt) * 100 / p.net_income_monthly := by
    unfold actual_needs_pct total_needs
    field_simp
    ring
  have hnp_pos : 0 < actual_needs_pct { p with needs_debt := d2 } - actual_needs_pct p := by
    rw [hnp]
    exact div_pos (mul_pos (sub_pos.2 hlt) (by norm_num)) hnet
  have hsp : actual_savings_pct p - actual_savings_pct { p with needs_debt := d2 }
      = (d2 - p.needs_debt) * 100 / p.net_income_monthly := by
    unfold actual_savings_pct savings_monthly_derived total_expenses_monthly total_needs
    field_simp
    ring
  have hsp_pos : 0 < actual_savings_pct p - actual_savings_pct { p with needs_debt := d2 } := by
    rw [hsp]
    exact div_pos (mul_pos (sub_pos.2 hlt) (by norm_num)) hnet
  have hdebt_strict : 0 < debt_score p →
      debt_score { p with needs_debt := d2 } < debt_score p := by
    intro hpos
    unfold debt_score at hpos ⊢
    have hraw1_le : 25 * (1 - dsr_pct p / 40) ≤ 25 := by linarith
    rw [min_eq_right hraw1_le] at hpos ⊢
    have hraw1_pos : 0 < 25 * (1 - dsr_pct p / 40) := by
      by_contra hc
      push_neg at hc
      rw [max_eq_left hc] at hpos
      exact lt_irrefl 0 hpos
    have hraw2_lt : 25 * (1 - dsr_pct { p with needs_debt := d2 } / 40)
        < 25 * (1 - dsr_pct p / 40) := by linarith
    rw [min_eq_right (by linarith), max_eq_right (le_of_lt hraw1_pos)]
    rcases le_or_lt (25 * (1 - dsr_pct { p with needs_debt := d2 } / 40)) 0 with hc | hc
    · rw [max_eq_left hc]
      exact hraw1_pos
    · rw [max_eq_right (le_of_lt hc)]
      exact hraw2_lt
  have hneeds_le : needs_score { p with needs_debt := d2 } ≤ needs_score p := by
    unfold needs_score
    exact clamp_mono _ _ _ (by linarith)
  have hsav_le : savings_score { p with needs_debt := d2 } ≤ savings_score p := by
    unfold savings_score
    exact clamp_mono _ _ _ (by linarith)
  have hwants_eq : wants_score { p with needs_debt := d2 } = wants_score p := rfl
  have hdebt_le : debt_score { p with needs_debt := d2 } ≤ debt_score p := by
    unfold debt_score
    exact clamp_mono _ _ _ (by linarith)
  have hhealth : health_score { p with needs_debt := d2 } ≤ health_score p := by
    unfold health_score
    rw [hwants_eq]
    linarith
  refine ⟨hdebt_strict, hneeds_le, hsav_le, hwants_eq, hhealth, ?_⟩
  intro r1 r2 h1 h2
  rw [result_of_ok h1, result_of_ok h2]
  exact round2_mono hhealth

/-- Witness for C6: raising `needs_debt` of the concrete scenario input from
1000 to 2000 strictly lowers the debt sub-score and can only lower the
other affected sub-scores and the health score. -/
theorem needs_debt_monotone_witness :
    (debt_score { sample_input with needs_debt := 2000 } < debt_score sample_input) ∧
    needs_score { sample_input with needs_debt := 2000 } ≤ needs_score sample_input ∧
    savings_score { sample_input with needs_debt := 2000 } ≤ savings_score sample_input ∧
    wants_score { sample_input with needs_debt := 2000 } = wants_score sample_input ∧
    health_score { sample_input with needs_debt := 2000 } ≤ health_score sample_input := by
  have h := needs_debt_monotone sample_input 2000 (by norm_num [sample_input])
    (by norm_num [sample_input]) (by norm_num [sample_input])
  have hpos : 0 < debt_score sample_input := by
    norm_num [debt_score, dsr_pct, sample_input, min_def, max_def]
  exact ⟨h.1 hpos, h.2.1, h.2.2.1, h.2.2.2.1, h.2.2.2.2.1⟩

/-- C7: the DSR status of an accepted input is classified from the unrounded
`dsr_pct` with inclusive upper bounds: ≤15 Excellent, ≤40 Good, ≤50 Warning,
otherwise Critical. -/
theorem dsr_status_thresholds (p : AnalysisInput) (r : AnalysisResult)
    (h : analyze_nic_data p = Except.ok r) :
    (r.dsr_status = "Excellent" ↔ dsr_pct p ≤ 15) ∧
    (r.dsr_status = "Good" ↔ 15 < dsr_pct p ∧ dsr_pct p ≤ 40) ∧
    (r.dsr_status = "Warning" ↔ 40 < dsr_pct p ∧ dsr_pct p ≤ 50) ∧
    (r.dsr_status = "Critical" ↔ 50 < dsr_pct p) := by
  rw [dsr_status_of_ok h]
  unfold dsr_status
  split_ifs with h1 h2 h3
  · exact ⟨⟨fun _ => h1, fun _ => rfl⟩,
      ⟨fun hh => absurd hh (by decide), fun hh => absurd h1 (not_le.mpr hh.1)⟩,
      ⟨fun hh => absurd hh (by decide), fun hh => by exfalso; linarith [hh.1]⟩,
      ⟨fun hh => absurd hh (by decide), fun hh => by exfalso; linarith⟩⟩
  · exact ⟨⟨fun hh => absurd hh (by decide), fun hh => absurd hh h1⟩,
      ⟨fun _ => ⟨not_le.mp h1, h2⟩, fun _ => rfl⟩,
      ⟨fun hh => absurd hh (by decide), fun hh => by exfalso; linarith [hh.1]⟩,
      ⟨fun hh => absurd hh (by decide), fun hh => by exfalso; linarith⟩⟩
  · exact ⟨⟨fun hh => absurd hh (by decide), fun hh => absurd hh h1⟩,
      ⟨fun hh => absurd hh (by decide), fun hh => absurd hh.2 h2⟩,
      ⟨fun _ => ⟨not_le.mp h2, h3⟩, fun _ => rfl⟩,
      ⟨fun hh => absurd hh (by decide), fun hh => by exfalso; linarith⟩⟩
  · exact ⟨⟨fun hh => absurd hh (by decide), fun hh => absurd hh h1⟩,
      ⟨fun hh => absurd hh (by decide), fun hh => absurd hh.2 h2⟩,
      ⟨fun hh => absurd hh (by decide), fun hh => absurd hh.2 h3⟩,
      ⟨fun _ => not_le.mp h3, fun _ => rfl⟩⟩

/-- Witness for C7: the threshold characterization evaluated on the concrete
scenario input (dsrPct = 10/3, status Excellent). -/
theorem dsr_status_thresholds_witness :
    (sample_result.dsr_status = "Excellent" ↔ dsr_pct sample_input ≤ 15) ∧
    (sample_result.dsr_status = "Good" ↔
      15 < dsr_pct sample_input ∧ dsr_pct sample_input ≤ 40) ∧
    (sample_result.dsr_status = "Warning" ↔
      40 < dsr_pct sample_input ∧ dsr_pct sample_input ≤ 50) ∧
    (sample_result.dsr_status = "Critical" ↔ 50 < dsr_pct sample_input) :=
  dsr_status_thresholds sample_input sample_result analyze_sample

/-- C8: no division by zero can happen — all percentage divisions divide by
the income, which is positive past the gate, and when all seven expense
fields are zero the survival-ratio division is skipped: the ratio is the
infinity sentinel (passed through the output rounding unchanged) and the
survival status is Excellent. -/
theorem division_guards (p : AnalysisInput)
    (hpos : 0 < p.net_income_monthly)
    (hz : p.needs_food = 0 ∧ p.needs_housing = 0 ∧ p.needs_transport = 0 ∧
      p.needs_utilities = 0 ∧ p.needs_insurance = 0 ∧ p.needs_debt = 0 ∧
      p.wants_misc = 0) :
    p.net_income_monthly ≠ 0 ∧
    survival_ratio_v p = SurvRatio.inf ∧
    survival_status p = "Excellent" ∧
    ∃ r, analyze_nic_data p = Except.ok r ∧ r.survival_ratio_v = SurvRatio.inf ∧
      r.survival_status = "Excellent" := by
  obtain ⟨h1, h2, h3, h4, h5, h6, h7⟩ := hz
  have hte : total_expenses_monthly p = 0 := by
    unfold total_expenses_monthly total_needs
    rw [h1, h2, h3, h4, h5, h6, h7]
    norm_num
  have hsr : survival_ratio_v p = SurvRatio.inf := by
    unfold survival_ratio_v
    rw [hte]
    norm_num
  have hss : survival_status p = "Excellent" := by
    unfold survival_status
    rw [hsr]
    rfl
  have hok : ∃ r, analyze_nic_data p = Except.ok r := by
    unfold analyze_nic_data
    rw [if_neg (not_le.mpr hpos)]
    exact ⟨_, rfl⟩
  obtain ⟨r, hr⟩ := hok
  refine ⟨ne_of_gt hpos, hsr, hss, r, hr, ?_, ?_⟩
  · rw [result_of_ok hr]
    show (match survival_ratio_v p with
      | .fin q => SurvRatio.fin (round2 q)
      | .inf => SurvRatio.inf) = SurvRatio.inf
    rw [hsr]
  · rw [survival_status_of_ok hr, hss]

/-- Witness for C8: the all-zero-expenses input with income 1000. -/
theorem division_guards_witness :
    zero_exp_input.net_income_monthly ≠ 0 ∧
    survival_ratio_v zero_exp_input = SurvRatio.inf ∧
    survival_status zero_exp_input = "Excellent" := by
  have h := division_guards zero_exp_input (by norm_num [zero_exp_input])
    (by norm_num [zero_exp_input])
  exact ⟨h.1, h.2.1, h.2.2.1⟩

/-- C9: the analyzer is deterministic and stateless — two calls on equal
inputs give identical results, and the second call's outcome is exactly the
function of its own argument (no state carried over from the first call). -/
theorem analyze_deterministic (p q : AnalysisInput) (h : p = q) :
    (run_twice p q).1 = (run_twice p q).2 ∧
    (run_twice p q).2 = analyze_nic_data q := by
  subst h
  exact ⟨rfl, rfl⟩

/-- Witness for C9: two calls on the concrete scenario input agree. -/
theorem analyze_deterministic_witness :
    (run_twice sample_input sample_input).1 = (run_twice sample_input sample_input).2 ∧
    (run_twice sample_input sample_input).2 = analyze_nic_data sample_input :=
  analyze_deterministic sample_input sample_input rfl

/-- C10: at the boundary where total expenses equal the net income the
survival ratio is exactly 1.0, the survival status is Warning (the Critical
test is the strict `< 1.0`), yet the crisis rule fires on `<= 1.0`, so the
crisis sentence heads the insight list and the returned insight text —
a Warning status accompanied by the crisis insight. -/
theorem boundary_warning_with_crisis (p : AnalysisInput)
    (hpos : 0 < p.net_income_monthly)
    (he : total_expenses_monthly p = p.net_income_monthly) :
    survival_ratio_v p = SurvRatio.fin 1 ∧
    survival_status p = "Warning" ∧
    (∃ t, insights_list p = crisis_text :: t) ∧
    (∃ s, weakness_insight_text p = crisis_text ++ s) ∧
    (∀ r, analyze_nic_data p = Except.ok r →
      r.survival_status = "Warning" ∧
      ∃ s, r.weakness_insight_text = crisis_text ++ s) := by
  have hsr : survival_ratio_v p = SurvRatio.fin 1 := by
    unfold survival_ratio_v
    rw [he, if_pos hpos, div_self (ne_of_gt hpos)]
  have hss : survival_status p = "Warning" := by
    unfold survival_status
    rw [hsr]
    simp only [SurvRatio.ltv]
    norm_num
  have hil : ∃ t, insights_list p = crisis_text :: t := by
    unfold insights_list
    rw [hsr]
    simp only [SurvRatio.lev]
    norm_num
  obtain ⟨t, ht⟩ := hil
  have hwt : ∃ s, weakness_insight_text p = crisis_text ++ s := by
    unfold weakness_insight_text
    rw [ht, if_neg (by simp)]
    rw [String.intercalate]
    exact intercalate_go_prefix " " t crisis_text
  refine ⟨hsr, hss, ⟨t, ht⟩, hwt, ?_⟩
  intro r hr
  refine ⟨by rw [survival_status_of_ok hr, hss], ?_⟩
  rw [weakness_of_ok hr]
  exact hwt

/-- Witness for C10: income 1000 with food expenses 1000 sits exactly on
the boundary: Warning status together with the crisis-headed insight list. -/
theorem boundary_warning_with_crisis_witness :
    survival_ratio_v boundary_input = SurvRatio.fin 1 ∧
    survival_status boundary_input = "Warning" := by
  have h := boundary_warning_with_crisis boundary_input
    (by norm_num [boundary_input])
    (by norm_num [total_expenses_monthly, total_needs, boundary_input])
  exact ⟨h.1, h.2.1⟩
